import Mathlib

/-!
Verification development for the device-mesh and parallelism-allocation
subsystem of realhf (file realhf/api/quickstart/device_mesh.py).

The Python code is shallowly embedded: a numpy 0/1 occupancy grid becomes a
`List (List Nat)`; raised Python exceptions become `Except PyErr`.  The helper
`are_ones_contiguous`, the cluster naming helpers (realhf/base/slurm_utils.py,
realhf/base/cluster.py) and the dataclasses `ParallelismConfig`
(realhf/api/cli_args.py) and `MFCDef` (realhf/api/core/dfg.py) are not part of
the sources; where they decide behaviour they are modelled from the spec and
marked as such.
-/

/-- Python exception sites of device_mesh.py, one constructor per raise/assert
site (the source attaches a diagnostic message at each site; the constructor
identifies the site, which is what the theorems need). -/
inductive PyErr where
  /-- RuntimeError at line 195: mapping shape differs from (n_nodes, n_gpus_per_node). -/
  | invalidMappingShape
  /-- RuntimeError at line 199: mapping holds a value other than 0 and 1. -/
  | invalidMappingValue
  /-- AssertionError at line 201: n_gpus_per_node is not a power of two. -/
  | gpusPerNodePow2Assert
  /-- RuntimeError at line 208: sub-node claimed count is not a power of two. -/
  | invalidSubNodeCount
  /-- RuntimeError at line 223: multi-node claim is not whole fully-claimed nodes. -/
  | invalidMultiNodeCount
  /-- RuntimeError at line 229: claimed cells are not one contiguous run. -/
  | mappingNotContiguous
  /-- AttributeError: a plain Python list (from mapping.tolist) has no .shape. -/
  | listHasNoShapeAttr
  /-- IndexError at line 285: node_indices[0] on a mapping with no claimed cell. -/
  | emptySelectionIndex
  /-- TypeError inside parse_nodelist when the nodelist argument is None. -/
  | nodelistOfNone
  /-- AssertionError at line 55: split size is not smaller than the claimed total. -/
  | splitSizeAssert
  /-- AssertionError at line 113: meshes on different cluster meshes compared. -/
  | notComparableAssert
  /-- AssertionError at line 160: n_gpus_per_node and min_n_gpus divide neither way. -/
  | minGpusDivAssert
  /-- ZeroDivisionError at line 161: n_gpus_per_node % 0 when min_n_gpus is 0. -/
  | divByZero
  /-- AssertionError at line 302: n_gpus not divisible by a model-parallel degree. -/
  | mpDivAssert
  /-- AssertionError at line 328: parallelism world size differs from mesh size. -/
  | worldSizeAssert
deriving DecidableEq

instance {ε α : Type} [DecidableEq ε] [DecidableEq α] : DecidableEq (Except ε α) := fun a b =>
  match a, b with
  | Except.ok x, Except.ok y =>
      if h : x = y then Decidable.isTrue (by simp [h]) else Decidable.isFalse (by simp [h])
  | Except.error e, Except.error f =>
      if h : e = f then Decidable.isTrue (by simp [h]) else Decidable.isFalse (by simp [h])
  | Except.ok _, Except.error _ => Decidable.isFalse (by simp)
  | Except.error _, Except.ok _ => Decidable.isFalse (by simp)

/-- A numpy value that is dynamically either a 2-D int ndarray or a plain
nested Python list (what mapping.tolist() yields).  The distinction matters
because .shape exists only on the former; rectangular ndarrays and the nested
lists returned by tolist carry the same rows. -/
inductive PyMat where
  | nd (rows : List (List Nat))
  | pylist (rows : List (List Nat))
deriving DecidableEq

/-- The rows carried by either representation. -/
def PyMat.rows : PyMat → List (List Nat)
  | .nd r => r
  | .pylist r => r

/-- Access to .shape: succeeds only on an ndarray (AttributeError on a list).
The arrays the source builds (np.zeros, np.array of rectangular lists) are
rectangular, so the shape is (number of rows, width of each row). -/
def PyMat.shapeOk : PyMat → Bool
  | .nd _ => true
  | .pylist _ => false

/-- Total of all grid values, np.sum(mapping). -/
def mapSum (rows : List (List Nat)) : Nat :=
  (rows.map List.sum).sum

/-- mapping.shape == (n, m) for the rectangular arrays the source constructs:
n rows, each of width m. -/
def hasShape (rows : List (List Nat)) (n m : Nat) : Bool :=
  rows.length == n && rows.all fun r => r.length == m

/-- np.all(np.logical_or(mapping == 0, mapping == 1)). -/
def vals01 (rows : List (List Nat)) : Bool :=
  rows.all fun r => r.all fun v => v == 0 || v == 1

/-- Fuel-based floor of log base 2 (fuel makes the kernel able to evaluate it). -/
def log2floorAux : Nat → Nat → Nat
  | 0, _ => 0
  | fuel + 1, n => if n ≤ 1 then 0 else 1 + log2floorAux fuel (n / 2)

/-- int(math.log(n, 2)) for the arguments the source reaches: exact binary
logarithm of a positive power of two, floor otherwise. -/
def log2floor (n : Nat) : Nat :=
  log2floorAux n n

/-- math.log(n_gpus_per_node, 2).is_integer(): n is a positive power of two
(math.log raises on 0, modelled as failure of the test). -/
def isPow2 (n : Nat) : Bool :=
  n != 0 && 2 ^ log2floor n == n

/-- one_node_valid_gpus at lines 203-205: the powers of two strictly below
n_gpus_per_node. -/
def one_node_valid_gpus (n_gpus_per_node : Nat) : List Nat :=
  (List.range (log2floor n_gpus_per_node)).map fun i => 2 ^ i

/-- Modelled from the spec: contiguous_run(bits) / are_ones_contiguous from
realhf/base/slurm_utils.py (not under src/): given a flattened 0/1 sequence,
all 1s form a single uninterrupted run. -/
def are_ones_contiguous (bits : List Nat) : Bool :=
  ((bits.dropWhile fun b => b == 0).reverse.dropWhile fun b => b == 0).all fun b => b == 1

/-- DeviceMesh._is_valid_mapping (lines 193-230), with the checks in source
order; True becomes Except.ok (), each raise site its PyErr constructor. -/
def is_valid_mapping (n_nodes n_gpus_per_node : Nat) (mapping : PyMat) : Except PyErr Unit :=
  match mapping with
  | .pylist _ => .error .listHasNoShapeAttr
  | .nd rows =>
    if ¬ hasShape rows n_nodes n_gpus_per_node then .error .invalidMappingShape
    else if ¬ vals01 rows then .error .invalidMappingValue
    else if ¬ isPow2 n_gpus_per_node then .error .gpusPerNodePow2Assert
    else if mapSum rows < n_gpus_per_node ∧
        ¬ (one_node_valid_gpus n_gpus_per_node).any (fun g => mapSum rows == g) then
      .error .invalidSubNodeCount
    else if n_gpus_per_node ≤ mapSum rows ∧
        ¬ (mapSum rows % n_gpus_per_node == 0 &&
           rows.all fun r => r.sum == n_gpus_per_node || r.sum == 0) then
      .error .invalidMultiNodeCount
    else if ¬ are_ones_contiguous rows.flatten then .error .mappingNotContiguous
    else .ok ()

/-- Boolean form of mapping validity over plain rows (an ndarray mapping). -/
def validMapping (n_nodes n_gpus_per_node : Nat) (rows : List (List Nat)) : Bool :=
  match is_valid_mapping n_nodes n_gpus_per_node (PyMat.nd rows) with
  | .ok _ => true
  | .error _ => false

/-- A DeviceMesh dataclass value (the mapping an ndarray, stored as its rows). -/
structure DeviceMesh where
  n_nodes : Nat
  n_gpus_per_node : Nat
  mapping : List (List Nat)
  global_mesh_name : Option String
  name : Option String
  gpu_memory_capacity : Nat
deriving DecidableEq

/-- Cells of value 1 in row i of the grid, columns counted from j. -/
def claimedCellsRow (i : Nat) : Nat → List Nat → List (Nat × Nat)
  | _, [] => []
  | j, x :: xs =>
    if x == 1 then (i, j) :: claimedCellsRow i (j + 1) xs else claimedCellsRow i (j + 1) xs

/-- Row-major walk of the grid collecting claimed cells, rows counted from i. -/
def claimedCellsAux : Nat → List (List Nat) → List (Nat × Nat)
  | _, [] => []
  | i, r :: rs => claimedCellsRow i 0 r ++ claimedCellsAux (i + 1) rs

/-- The claimed cells np.where(mapping == 1) in row-major order, as
(node index, gpu index) pairs. -/
def claimedCells (rows : List (List Nat)) : List (Nat × Nat) :=
  claimedCellsAux 0 rows

/-- Modelled from the spec: the cluster naming prefix and zero-pad width come
from the process-wide ClusterTopology (realhf/base/cluster.py, not under
src/); the spec fixes the convention prefix + zero-padded index range.  We use
prefix NODE and width 2 as in the spec examples; no claim inspects name text. -/
def defaultGlobalMeshName (n_nodes : Nat) : String :=
  let pad := fun (k : Nat) => if k < 10 then String.append ("0") (Nat.repr k) else Nat.repr k
  if n_nodes > 1 then
    String.append ("NODE[") (String.append (pad 1)
      (String.append ("-") (String.append (pad n_nodes) ("]"))))
  else String.append ("NODE") (pad 1)

/-- device_mesh_name_from_mapping (lines 276-292).  parse_nodelist and
nodelist_from_nodes (realhf/base/slurm_utils.py, not under src/) are modelled
from the spec only as far as the claims need: node i of the cluster named g is
rendered as g#i (no claim inspects name text).  Faithful control flow:
parse_nodelist(None) raises; mapping.shape on a plain list raises; and with a
sub-node total, node_indices[0] on an empty selection raises IndexError. -/
def device_mesh_name_from_mapping (global_mesh_name : Option String) (mapping : PyMat) :
    Except PyErr String :=
  match global_mesh_name with
  | none => .error .nodelistOfNone
  | some g =>
    match mapping with
    | .pylist _ => .error .listHasNoShapeAttr
    | .nd rows =>
      if mapSum rows < (rows.headD []).length then
        match claimedCells rows with
        | [] => .error .emptySelectionIndex
        | c :: _ =>
          .ok (String.append g (String.append ("#") (String.append (Nat.repr c.1)
            (String.append (":")
              (String.intercalate (",") ((claimedCells rows).map fun p => Nat.repr p.2))))))
      else
        .ok (String.append g (String.append ("#")
          (String.intercalate (",") ((((claimedCells rows).map fun p => p.1).dedup).map
            Nat.repr))))

/-- DeviceMesh construction: dataclass __init__ followed by __post_init__
(lines 97-110): fill global_mesh_name with the whole-cluster default, derive
name from the mapping when absent (the filled global name is never None, so
the guard at line 106 reduces to name being None), then assert
_is_valid_mapping. -/
def mkDeviceMesh (n_nodes n_gpus_per_node : Nat) (mapping : PyMat)
    (global_mesh_name name : Option String) (gpu_memory_capacity : Nat) :
    Except PyErr DeviceMesh :=
  match (match name with
         | some nm => Except.ok nm
         | none => device_mesh_name_from_mapping
             (some (global_mesh_name.getD (defaultGlobalMeshName n_nodes))) mapping) with
  | .error e => .error e
  | .ok nm =>
    match is_valid_mapping n_nodes n_gpus_per_node mapping with
    | .error e => .error e
    | .ok _ =>
      .ok { n_nodes := n_nodes, n_gpus_per_node := n_gpus_per_node,
            mapping := mapping.rows,
            global_mesh_name := some (global_mesh_name.getD (defaultGlobalMeshName n_nodes)),
            name := some nm, gpu_memory_capacity := gpu_memory_capacity }

/-- The row-major scan of split (lines 59-68) on the flattened grid: walk the
cells in order, turning the first k claimed cells (value 1 after validation)
to 0 and keeping the rest; what remains is sub_mapping2.  The loop is guarded
by the assertion that the mapping holds more than k ones, so the exhausted
case (Python would index out of range) is unreachable. -/
def zeroFirstOnes : Nat → List Nat → List Nat
  | 0, xs => xs
  | _ + 1, [] => []
  | k + 1, x :: xs => if x == 0 then x :: zeroFirstOnes (k + 1) xs else 0 :: zeroFirstOnes k xs

/-- Spec-side description of the first half of a split: the mask marking the
first k claimed cells of the flattened grid ("the first k claimed cells in
row-major traversal order, skipping unclaimed cells").  Stated from the spec
to be compared with what the source computes. -/
def firstOnesMask : Nat → List Nat → List Nat
  | _, [] => []
  | 0, _ :: xs => 0 :: firstOnesMask 0 xs
  | k + 1, x :: xs => if x == 0 then 0 :: firstOnesMask (k + 1) xs else 1 :: firstOnesMask k xs

/-- Cut a flat list back into rows of the same widths as a pattern grid. -/
def reshapeLike : List (List Nat) → List Nat → List (List Nat)
  | [], _ => []
  | r :: rs, flat => flat.take r.length :: reshapeLike rs (flat.drop r.length)

/-- Element-wise combination of two grids (numpy broadcasting never arises:
the source combines grids of identical shape). -/
def gridZipWith (f : Nat → Nat → Nat) (a b : List (List Nat)) : List (List Nat) :=
  List.zipWith (fun ra rb => List.zipWith f ra rb) a b

/-- sub_mapping2 of split(k): the mapping with the first k claimed cells
cleared (lines 59-68; the 2-D index walk cnt // n, cnt % n is the row-major
flattening of the validated rectangular grid). -/
def splitSub2 (m : DeviceMesh) (k : Nat) : List (List Nat) :=
  reshapeLike m.mapping (zeroFirstOnes k m.mapping.flatten)

/-- sub_mapping1 = self.mapping - sub_mapping2 (line 69). -/
def splitSub1 (m : DeviceMesh) (k : Nat) : List (List Nat) :=
  gridZipWith (fun u v => u - v) m.mapping (splitSub2 m k)

/-- DeviceMesh.split (lines 48-89): assert validity, assert the size bound,
clear the first k claimed cells to obtain sub_mapping2, subtract to get
sub_mapping1, then construct both sub-meshes (each construction derives its
name from the sub-mapping and re-validates in __post_init__; the trailing
asserts at lines 87-88 re-check what __post_init__ already established). -/
def DeviceMesh.split (m : DeviceMesh) (k : Nat) : Except PyErr (DeviceMesh × DeviceMesh) :=
  match is_valid_mapping m.n_nodes m.n_gpus_per_node (PyMat.nd m.mapping) with
  | .error e => .error e
  | .ok _ =>
    if mapSum m.mapping ≤ k then .error .splitSizeAssert
    else
      match device_mesh_name_from_mapping m.global_mesh_name (PyMat.nd (splitSub1 m k)) with
      | .error e => .error e
      | .ok n1 =>
        match mkDeviceMesh m.n_nodes m.n_gpus_per_node (PyMat.nd (splitSub1 m k))
            m.global_mesh_name (some n1) m.gpu_memory_capacity with
        | .error e => .error e
        | .ok d1 =>
          match device_mesh_name_from_mapping m.global_mesh_name (PyMat.nd (splitSub2 m k)) with
          | .error e => .error e
          | .ok n2 =>
            match mkDeviceMesh m.n_nodes m.n_gpus_per_node (PyMat.nd (splitSub2 m k))
                m.global_mesh_name (some n2) m.gpu_memory_capacity with
            | .error e => .error e
            | .ok d2 => .ok (d1, d2)

/-- DeviceMesh.__eq__ (lines 112-117): asserts that self's global_mesh_name is
None or equal to other's (note: only self's side is tested), then compares the
mappings element-wise. -/
def DeviceMesh.eq (a b : DeviceMesh) : Except PyErr Bool :=
  if a.global_mesh_name = none ∨ a.global_mesh_name = b.global_mesh_name then
    .ok (decide (a.mapping = b.mapping))
  else .error .notComparableAssert

/-- The plain structured record produced by DeviceMesh.to_dict (lines 38-46);
mapping is stored with tolist(), hence a plain nested list. -/
structure MeshDict where
  n_nodes : Nat
  n_gpus_per_node : Nat
  mapping : PyMat
  global_mesh_name : Option String
  name : Option String
  gpu_memory_capacity : Nat
deriving DecidableEq

/-- DeviceMesh.to_dict (lines 38-46). -/
def DeviceMesh.to_dict (m : DeviceMesh) : MeshDict :=
  { n_nodes := m.n_nodes, n_gpus_per_node := m.n_gpus_per_node,
    mapping := PyMat.pylist m.mapping,
    global_mesh_name := m.global_mesh_name, name := m.name,
    gpu_memory_capacity := m.gpu_memory_capacity }

/-- DeviceMesh.from_dict (lines 91-95): DeviceMesh(**d) runs __post_init__
with self.mapping still carrying whatever the record holds; only afterwards
would line 94 replace it by np.array(d["mapping"]).  In our model the
constructed mesh already stores rows, so the replacement is the identity. -/
def DeviceMesh.from_dict (d : MeshDict) : Except PyErr DeviceMesh := do
  let dm ← mkDeviceMesh d.n_nodes d.n_gpus_per_node d.mapping d.global_mesh_name d.name
    d.gpu_memory_capacity
  return dm

/-- Modelled from the spec: ParallelDegrees, the triple
(pipeline, model parallel, data parallel); the dataclass ParallelismConfig of
realhf/api/cli_args.py is not under src/, and find_parallel_strategies builds
it positionally in this order. -/
structure ParallelismConfig where
  pipeline_parallel_size : Nat
  model_parallel_size : Nat
  data_parallel_size : Nat
deriving DecidableEq

/-- The inner while loop of find_parallel_strategies (lines 304-312) for a
fixed model-parallel degree: num_pp ranges over 1..num_dp_pp; a triple is kept
when n_gpus // num_pp is 1, 2, 4, 8 or a multiple of 8 and num_pp divides
num_dp_pp. -/
def inner_pps (n_gpus num_mp num_dp_pp : Nat) : List ParallelismConfig :=
  (List.range num_dp_pp).filterMap fun i =>
    let num_pp := i + 1
    let num_dp_mp := n_gpus / num_pp
    if (num_dp_mp = 1 ∨ num_dp_mp = 2 ∨ num_dp_mp = 4 ∨ num_dp_mp = 8 ∨ num_dp_mp % 8 = 0)
        ∧ num_dp_pp % num_pp = 0 then
      some { pipeline_parallel_size := num_pp, model_parallel_size := num_mp,
             data_parallel_size := num_dp_pp / num_pp }
    else none

/-- One iteration of the outer loop (lines 300-303): a model-parallel degree
is entered only when num_mp <= n_gpus, and then the source asserts (not
filters) that num_mp divides n_gpus. -/
def mpBlock (n_gpus num_mp : Nat) : Except PyErr (List ParallelismConfig) :=
  if num_mp ≤ n_gpus then
    if n_gpus % num_mp = 0 then .ok (inner_pps n_gpus num_mp (n_gpus / num_mp))
    else .error .mpDivAssert
  else .ok []

/-- find_parallel_strategies (lines 295-313) as a function of the device
count: the outer loop walks num_mp through 1, 2, 4, 8 in order, appending each
block's triples. -/
def search_strategies (n_gpus : Nat) : Except PyErr (List ParallelismConfig) := do
  let b1 ← mpBlock n_gpus 1
  let b2 ← mpBlock n_gpus 2
  let b4 ← mpBlock n_gpus 4
  let b8 ← mpBlock n_gpus 8
  return b1 ++ b2 ++ b4 ++ b8

/-- find_parallel_strategies applied to a mesh: n_gpus = np.sum(mapping). -/
def find_parallel_strategies (device_mesh : DeviceMesh) : Except PyErr (List ParallelismConfig) :=
  search_strategies (mapSum device_mesh.mapping)

/-- Python range(start, stop, step) over naturals, step >= 1. -/
def rangeStep (start stop step : Nat) : List Nat :=
  if step = 0 then []
  else (List.range ((stop - start + step - 1) / step)).map fun i => start + i * step

/-- The widths walked by the while loop at lines 164-172: n_gpus starts at
min_n_gpus and doubles while it stays below the bound.  Fuel (the bound
itself) covers every iteration the loop can make, since the width at least
doubles each time and starts at 1 or more. -/
def doublingsAux : Nat → Nat → Nat → List Nat
  | 0, _, _ => []
  | fuel + 1, s, bound => if s = 0 ∨ bound ≤ s then [] else s :: doublingsAux fuel (2 * s) bound

/-- Widths min_n_gpus, 2*min_n_gpus, ... strictly below the bound. -/
def doublings (s bound : Nat) : List Nat :=
  doublingsAux bound s bound

/-- Row indices that contain at least one claimed cell, ascending:
np.unique(np.where(mapping == 1)[0]). -/
def onesRowIdx (rows : List (List Nat)) : List Nat :=
  (rows.enum.filter fun p => p.2.any fun v => v == 1).map fun p => p.1

/-- Claimed column indices of one row, ascending: the cols of np.where for
that row. -/
def colsOf (row : List Nat) : List Nat :=
  (row.enum.filter fun q => q.2 == 1).map fun q => q.1

/-- Zero grid of shape (n, m): np.zeros((n, m)). -/
def zerosGrid (n m : Nat) : List (List Nat) :=
  List.replicate n (List.replicate m 0)

/-- sub_mapping[row, a:b] = 1 (numpy slice assignment, clipped at the row
width). -/
def setRowRange (grid : List (List Nat)) (r a b : Nat) : List (List Nat) :=
  grid.enum.map fun p =>
    if p.1 = r then p.2.enum.map fun q => if a ≤ q.1 ∧ q.1 < b then 1 else q.2
    else p.2

/-- sub_mapping[a:b, :] = 1. -/
def setRowsFull (grid : List (List Nat)) (a b : Nat) : List (List Nat) :=
  grid.enum.map fun p => if a ≤ p.1 ∧ p.1 < b then p.2.map fun _ => 1 else p.2

/-- The single-node candidate mappings of sub_device_meshes (lines 158-172):
for each claimed row, widths doubling from min_n_gpus while below
min(n_gpus_per_node, total claimed), start columns stepping by the width from
the row's first claimed column.  The assert at lines 160-163 runs inside the
row loop; with min_n_gpus = 0 the modulus raises ZeroDivisionError first. -/
def singleNodeMappings (m : DeviceMesh) (min_n_gpus : Nat) :
    Except PyErr (List (List (List Nat))) :=
  (onesRowIdx m.mapping).foldlM
    (fun acc row =>
      if min_n_gpus = 0 then .error .divByZero
      else if ¬ (m.n_gpus_per_node % min_n_gpus = 0 ∨ min_n_gpus % m.n_gpus_per_node = 0) then
        .error .minGpusDivAssert
      else
        let minCol := (colsOf (m.mapping.getD row [])).headD 0
        let sizes := doublings min_n_gpus (min m.n_gpus_per_node (mapSum m.mapping))
        .ok (acc ++ (sizes.map fun s =>
          (rangeStep minCol m.n_gpus_per_node s).map fun start =>
            setRowRange (zerosGrid m.n_nodes m.n_gpus_per_node) row start (start + s)).flatten))
    []

/-- The multi-node candidate mappings (lines 174-180): for each candidate node
count 1..(number of claimed rows), every start offset counted from 0 — the
offsets index the grid from its first row, not from the mesh's first claimed
row. -/
def multiNodeMappings (m : DeviceMesh) : List (List (List Nat)) :=
  let nClaimed := (onesRowIdx m.mapping).length
  ((List.range nClaimed).map fun nr =>
    (List.range (nClaimed - (nr + 1) + 1)).map fun start =>
      setRowsFull (zerosGrid m.n_nodes m.n_gpus_per_node) start (start + (nr + 1))).flatten

/-- DeviceMesh.sub_device_meshes (lines 142-191): collect the single-node and
multi-node candidate mappings, then construct a DeviceMesh from each (deriving
its name from the sub-mapping; __post_init__ re-validates). -/
def DeviceMesh.sub_device_meshes (m : DeviceMesh) (min_n_gpus : Nat) :
    Except PyErr (List DeviceMesh) := do
  let singles ← singleNodeMappings m min_n_gpus
  let subs := singles ++ multiNodeMappings m
  subs.mapM fun sub => do
    let nm ← device_mesh_name_from_mapping m.global_mesh_name (PyMat.nd sub)
    mkDeviceMesh m.n_nodes m.n_gpus_per_node (PyMat.nd sub) m.global_mesh_name (some nm)
      m.gpu_memory_capacity

/-- Modelled from the spec: the workload identity bound into an allocation is
an opaque named reference (MFCDef of realhf/api/core/dfg.py is not under
src/); only its name is consumed here (to_dict stores rpc.name). -/
structure MFCDef where
  name : String
deriving DecidableEq

/-- An RPCAllocation dataclass value. -/
structure RPCAllocation where
  rpc : MFCDef
  device_mesh : DeviceMesh
  parallel : ParallelismConfig
deriving DecidableEq

/-- RPCAllocation construction: __post_init__ (lines 322-331) asserts that the
parallelism world size equals the mesh's claimed GPU count. -/
def mkRPCAllocation (rpc : MFCDef) (device_mesh : DeviceMesh) (parallel : ParallelismConfig) :
    Except PyErr RPCAllocation :=
  if parallel.model_parallel_size * parallel.pipeline_parallel_size * parallel.data_parallel_size
      = mapSum device_mesh.mapping then
    .ok { rpc := rpc, device_mesh := device_mesh, parallel := parallel }
  else .error .worldSizeAssert

/-- The record RPCAllocation.to_dict produces (lines 333-338): the rpc slot
holds the bare name string, the mesh its to_dict record. -/
structure RPCAllocationDict where
  rpc : String
  device_mesh : MeshDict
  parallel : ParallelismConfig
deriving DecidableEq

/-- RPCAllocation.to_dict (lines 333-338). -/
def RPCAllocation.to_dict (a : RPCAllocation) : RPCAllocationDict :=
  { rpc := a.rpc.name, device_mesh := a.device_mesh.to_dict, parallel := a.parallel }

/-- RPCAllocation.from_dict (lines 340-346): rebuilds the mesh with
DeviceMesh.from_dict, rebuilds the parallelism config, and passes the stored
rpc value through (the Python code stores the bare name string in the MFCDef
slot; our typed model can only record the name, which is all the string
carries), then __post_init__ re-checks the world size. -/
def RPCAllocation.from_dict (d : RPCAllocationDict) : Except PyErr RPCAllocation := do
  let dm ← DeviceMesh.from_dict d.device_mesh
  mkRPCAllocation { name := d.rpc } dm
    { pipeline_parallel_size := d.parallel.pipeline_parallel_size,
      model_parallel_size := d.parallel.model_parallel_size,
      data_parallel_size := d.parallel.data_parallel_size }

/-- a is element-wise at most b over grids of equal shape (the containment the
spec asserts for enumerated sub-meshes). -/
def mappingLE (a b : List (List Nat)) : Bool :=
  a.length == b.length &&
    (List.zip a b).all fun p =>
      p.1.length == p.2.length && (List.zip p.1 p.2).all fun q => q.1 ≤ q.2

/-- The enumeration order the spec fixes for strategies: ascending
model-parallel degree, then ascending pipeline degree. -/
def strategyOrder (a b : ParallelismConfig) : Prop :=
  a.model_parallel_size < b.model_parallel_size ∨
    (a.model_parallel_size = b.model_parallel_size ∧
      a.pipeline_parallel_size < b.pipeline_parallel_size)

/-- Cluster partition name used by the concrete instances below. -/
def strG : String := "g"

/-- A fully claimed 8-GPU node row. -/
def o8 : List Nat := [1, 1, 1, 1, 1, 1, 1, 1]

/-- An unclaimed 8-GPU node row. -/
def z8 : List Nat := [0, 0, 0, 0, 0, 0, 0, 0]

/-- GPUs 0-3 of a node. -/
def h40 : List Nat := [1, 1, 1, 1, 0, 0, 0, 0]

/-- GPUs 4-7 of a node. -/
def h44 : List Nat := [0, 0, 0, 0, 1, 1, 1, 1]

/-- GPUs 1-4 of a node: a width-4 claim at the misaligned offset 1. -/
def hMis : List Nat := [0, 1, 1, 1, 1, 0, 0, 0]

/-- A valid single-node mesh claiming all 8 GPUs. -/
def meshFull18 : DeviceMesh :=
  { n_nodes := 1, n_gpus_per_node := 8, mapping := [o8],
    global_mesh_name := some strG, name := some strG, gpu_memory_capacity := 0 }

/-- A valid two-node mesh claiming both full 8-GPU nodes. -/
def meshFull2x8 : DeviceMesh :=
  { n_nodes := 2, n_gpus_per_node := 8, mapping := [o8, o8],
    global_mesh_name := some strG, name := some strG, gpu_memory_capacity := 0 }

/-- Name the construction derives for the first half of splitting
meshFull2x8 at 8 (node row 0). -/
def strGn0 : String := "g#0"

/-- Name the construction derives for the second half (node row 1). -/
def strGn1 : String := "g#1"

/-- First half of meshFull2x8.split 8: node 0. -/
def meshSplitA : DeviceMesh :=
  { n_nodes := 2, n_gpus_per_node := 8, mapping := [o8, z8],
    global_mesh_name := some strG, name := some strGn0, gpu_memory_capacity := 0 }

/-- Second half of meshFull2x8.split 8: node 1. -/
def meshSplitB : DeviceMesh :=
  { n_nodes := 2, n_gpus_per_node := 8, mapping := [z8, o8],
    global_mesh_name := some strG, name := some strGn1, gpu_memory_capacity := 0 }

/-- A valid sub-node mesh claiming GPUs 2 and 3 of a single 8-GPU node (a
contiguous power-of-two claim that does not start at column 0). -/
def meshC7 : DeviceMesh :=
  { n_nodes := 1, n_gpus_per_node := 8, mapping := [[0, 0, 1, 1, 0, 0, 0, 0]],
    global_mesh_name := some strG, name := some strG, gpu_memory_capacity := 0 }

/-- The 4-node cluster mesh claiming nodes 0 and 1 fully (16 GPUs). -/
def meshC8 : DeviceMesh :=
  { n_nodes := 4, n_gpus_per_node := 8, mapping := [o8, o8, z8, z8],
    global_mesh_name := some strG, name := some strG, gpu_memory_capacity := 0 }

/-- The mappings sub_device_meshes enumerates for meshC8 with min_n_gpus 4. -/
def subMappingsC8 : List (List (List Nat)) :=
  [[h40, z8, z8, z8], [h44, z8, z8, z8], [z8, h40, z8, z8], [z8, h44, z8, z8],
   [o8, z8, z8, z8], [z8, o8, z8, z8], [o8, o8, z8, z8]]

/-- A valid mesh of 3 fully claimed 4-GPU nodes: 12 claimed GPUs. -/
def mesh34 : DeviceMesh :=
  { n_nodes := 3, n_gpus_per_node := 4,
    mapping := [[1, 1, 1, 1], [1, 1, 1, 1], [1, 1, 1, 1]],
    global_mesh_name := some strG, name := some strG, gpu_memory_capacity := 0 }

/-- A mesh whose global_mesh_name is set. -/
def meshA9 : DeviceMesh :=
  { n_nodes := 1, n_gpus_per_node := 8, mapping := [o8],
    global_mesh_name := some strG, name := some strG, gpu_memory_capacity := 0 }

/-- A mesh value whose global_mesh_name slot holds None (the dataclass field
admits None; __eq__ tests it explicitly). -/
def meshB9 : DeviceMesh :=
  { n_nodes := 1, n_gpus_per_node := 8, mapping := [o8],
    global_mesh_name := none, name := some strG, gpu_memory_capacity := 0 }

/-- Workload identity for the allocation round-trip instance. -/
def strActor : String := "actor_train"

/-- Parallelism degrees (1, 1, 8) matching meshFull18. -/
def pcC4 : ParallelismConfig :=
  { pipeline_parallel_size := 1, model_parallel_size := 1, data_parallel_size := 8 }

/-- A valid allocation binding meshFull18 to degrees (1, 1, 8). -/
def allocC4 : RPCAllocation :=
  { rpc := { name := strActor }, device_mesh := meshFull18, parallel := pcC4 }

/-- What search_strategies returns for 8 GPUs. -/
def strategies8 : List ParallelismConfig :=
  [{ pipeline_parallel_size := 1, model_parallel_size := 1, data_parallel_size := 8 },
   { pipeline_parallel_size := 2, model_parallel_size := 1, data_parallel_size := 4 },
   { pipeline_parallel_size := 4, model_parallel_size := 1, data_parallel_size := 2 },
   { pipeline_parallel_size := 8, model_parallel_size := 1, data_parallel_size := 1 },
   { pipeline_parallel_size := 1, model_parallel_size := 2, data_parallel_size := 4 },
   { pipeline_parallel_size := 2, model_parallel_size := 2, data_parallel_size := 2 },
   { pipeline_parallel_size := 4, model_parallel_size := 2, data_parallel_size := 1 },
   { pipeline_parallel_size := 1, model_parallel_size := 4, data_parallel_size := 2 },
   { pipeline_parallel_size := 2, model_parallel_size := 4, data_parallel_size := 1 },
   { pipeline_parallel_size := 1, model_parallel_size := 8, data_parallel_size := 1 }]

theorem validMapping_iff (n p : Nat) (rows : List (List Nat)) :
    validMapping n p rows = true ↔ is_valid_mapping n p (PyMat.nd rows) = Except.ok () := by
  unfold validMapping
  cases h : is_valid_mapping n p (PyMat.nd rows) with
  | ok u => cases u; simp
  | error e => simp

theorem except_bind_ok {ε α β : Type} {x : Except ε α} {f : α → Except ε β} {b : β} :
    (x >>= f) = Except.ok b ↔ ∃ a, x = Except.ok a ∧ f a = Except.ok b := by
  cases x <;> simp [Bind.bind, Except.bind]

/-- C9 counterexample: a pair of mesh values with the second's
global_mesh_name unset is rejected by DeviceMesh.__eq__, although the claim
says a comparison with at least one side unset succeeds.  The guard at line
113 tests only self's side. -/
theorem eq_unset_other_counterexample :
    meshB9.global_mesh_name = none ∧
    DeviceMesh.eq meshA9 meshB9 = Except.error PyErr.notComparableAssert := by
  constructor
  · rfl
  · decide

/-- C9 (amended): DeviceMesh.__eq__ succeeds and returns element-wise mapping
equality exactly when the first mesh's global_mesh_name is unset or equals the
second's; when the first's is set and differs from the second's (including
when only the second is unset) the comparison fails. -/
theorem eq_guard_left_only (a b : DeviceMesh) :
    (a.global_mesh_name = none ∨ a.global_mesh_name = b.global_mesh_name →
      DeviceMesh.eq a b = Except.ok (decide (a.mapping = b.mapping))) ∧
    (a.global_mesh_name ≠ none → a.global_mesh_name ≠ b.global_mesh_name →
      DeviceMesh.eq a b = Except.error PyErr.notComparableAssert) := by
  constructor
  · intro h
    unfold DeviceMesh.eq
    rw [if_pos h]
  · intro h1 h2
    unfold DeviceMesh.eq
    rw [if_neg]
    rintro (hc | hc)
    · exact h1 hc
    · exact h2 hc

theorem eq_guard_left_only_witness :
    DeviceMesh.eq meshB9 meshA9 = Except.ok (decide (meshB9.mapping = meshA9.mapping)) ∧
    DeviceMesh.eq meshA9 meshB9 = Except.error PyErr.notComparableAssert :=
  ⟨(eq_guard_left_only meshB9 meshA9).1 (Or.inl (by decide)),
   (eq_guard_left_only meshA9 meshB9).2 (by decide) (by decide)⟩

/-- C4: serialize followed by deserialize does not round-trip — it crashes.
DeviceMesh.to_dict stores mapping.tolist(); DeviceMesh.from_dict runs
DeviceMesh(**d), whose __post_init__ touches self.mapping.shape while the
mapping is still that plain list, raising AttributeError before line 94 can
convert it back to an ndarray.  The same failure propagates through
RPCAllocation.from_dict.  Both inputs here are valid values (the mesh passes
validation; the allocation passes the world-size check). -/
theorem from_dict_roundtrip_crashes :
    validMapping meshFull18.n_nodes meshFull18.n_gpus_per_node meshFull18.mapping = true ∧
    DeviceMesh.from_dict meshFull18.to_dict = Except.error PyErr.listHasNoShapeAttr ∧
    mkRPCAllocation allocC4.rpc meshFull18 pcC4 = Except.ok allocC4 ∧
    RPCAllocation.from_dict allocC4.to_dict = Except.error PyErr.listHasNoShapeAttr := by
  refine ⟨by decide, by decide, by decide, by decide⟩

/-- C7: sub_device_meshes produces meshes that are not contained in the mesh
it was asked about.  meshC7 validly claims only GPUs 2 and 3 of its single
node, yet the enumeration returns exactly one candidate — the fully claimed
node row — which claims six GPUs the mesh does not hold, contradicting the
docstring "Find sub device meshes of this device mesh". -/
theorem sub_device_meshes_not_contained :
    validMapping meshC7.n_nodes meshC7.n_gpus_per_node meshC7.mapping = true ∧
    Except.map (List.map DeviceMesh.mapping) (meshC7.sub_device_meshes 4)
      = Except.ok [[o8]] ∧
    mappingLE [o8] meshC7.mapping = false := by
  refine ⟨by decide, by decide, by decide⟩

/-- C8: on the 4-node, 8-GPU cluster with nodes 0 and 1 fully claimed,
sub_device_meshes with min_n_gpus 4 yields exactly the four aligned size-4
single-node sub-meshes (offsets 0 and 4 on each claimed node), the two 1-node
full meshes, and the 2-node full mesh; no misaligned offset-1 width-4
sub-mesh and no 3-GPU sub-mesh appears. -/
theorem sub_device_meshes_scenario :
    Except.map (List.map DeviceMesh.mapping) (meshC8.sub_device_meshes 4)
      = Except.ok subMappingsC8 ∧
    [h40, z8, z8, z8] ∈ subMappingsC8 ∧ [h44, z8, z8, z8] ∈ subMappingsC8 ∧
    [z8, h40, z8, z8] ∈ subMappingsC8 ∧ [z8, h44, z8, z8] ∈ subMappingsC8 ∧
    [o8, z8, z8, z8] ∈ subMappingsC8 ∧ [o8, o8, z8, z8] ∈ subMappingsC8 ∧
    [hMis, z8, z8, z8] ∉ subMappingsC8 ∧ [z8, hMis, z8, z8] ∉ subMappingsC8 ∧
    ∀ rows ∈ subMappingsC8, mapSum rows ≠ 3 := by
  refine ⟨by decide, by decide, by decide, by decide, by decide, by decide, by decide,
    by decide, by decide, by decide⟩

/-- C5 counterexample: 12 GPUs is the claimed total of a valid mesh (three
fully claimed 4-GPU nodes), yet find_parallel_strategies does not return — the
assert at line 302 fires for model-parallel degree 8 (12 >= 8 but 12 % 8 != 0)
instead of skipping that degree. -/
theorem strategies_assert_counterexample :
    validMapping mesh34.n_nodes mesh34.n_gpus_per_node mesh34.mapping = true ∧
    mapSum mesh34.mapping = 12 ∧
    find_parallel_strategies mesh34 = Except.error PyErr.mpDivAssert := by
  refine ⟨by decide, by decide, by decide⟩

theorem isPow2_pos {p : Nat} (h : isPow2 p = true) : 0 < p := by
  unfold isPow2 at h
  simp only [Bool.and_eq_true, bne_iff_ne, ne_eq] at h
  exact Nat.pos_of_ne_zero h.1

theorem one_node_valid_gpus_pos {p : Nat} : ∀ x ∈ one_node_valid_gpus p, 0 < x := by
  intro x hx
  unfold one_node_valid_gpus at hx
  simp only [List.mem_map, List.mem_range] at hx
  obtain ⟨i, _, rfl⟩ := hx
  exact pow_pos (by norm_num) i

theorem valid_parts {n p : Nat} {rows : List (List Nat)}
    (h : is_valid_mapping n p (PyMat.nd rows) = Except.ok ()) :
    hasShape rows n p = true ∧ vals01 rows = true ∧ isPow2 p = true ∧
    are_ones_contiguous rows.flatten = true := by
  simp only [is_valid_mapping] at h
  split_ifs at h with h1 h2 h3 h4 h5 h6
  exact ⟨h1, h2, h3, h6⟩

theorem valid_sum_pos {n p : Nat} {rows : List (List Nat)}
    (h : is_valid_mapping n p (PyMat.nd rows) = Except.ok ()) : 0 < mapSum rows := by
  rcases Nat.eq_zero_or_pos (mapSum rows) with hz | hpos
  · exfalso
    simp only [is_valid_mapping] at h
    split_ifs at h with h1 h2 h3 h4 h5 h6
    have hp : 0 < p := isPow2_pos h3
    have hany : (one_node_valid_gpus p).any (fun g => mapSum rows == g) = true := by
      by_contra hn
      exact h4 ⟨hz ▸ hp, fun hc => hn hc⟩
    rw [List.any_eq_true] at hany
    obtain ⟨x, hx, hbeq⟩ := hany
    have hx0 : 0 < x := one_node_valid_gpus_pos x hx
    have hmx : mapSum rows = x := eq_of_beq hbeq
    omega
  · exact hpos

theorem mkDeviceMesh_ok_inversion {n p : Nat} {mp : PyMat} {g nm : Option String} {cap : Nat}
    {m : DeviceMesh} (h : mkDeviceMesh n p mp g nm cap = Except.ok m) :
    is_valid_mapping n p mp = Except.ok () ∧ m.n_nodes = n ∧ m.n_gpus_per_node = p ∧
    m.mapping = mp.rows := by
  unfold mkDeviceMesh at h
  split at h
  · exact Except.noConfusion h
  · split at h
    · exact Except.noConfusion h
    · rename_i u heq
      cases u
      injection h with h'
      subst h'
      exact ⟨heq, rfl, rfl, rfl⟩

theorem mkDeviceMesh_error_of_invalid {n p : Nat} {mp : PyMat} (g nm : Option String)
    (cap : Nat) (h : is_valid_mapping n p mp ≠ Except.ok ()) :
    ∃ e, mkDeviceMesh n p mp g nm cap = Except.error e := by
  have hv : ∃ e, is_valid_mapping n p mp = Except.error e := by
    cases hx : is_valid_mapping n p mp with
    | ok u => cases u; exact absurd hx h
    | error e => exact ⟨e, rfl⟩
  obtain ⟨e, he⟩ := hv
  unfold mkDeviceMesh
  split
  · exact ⟨_, rfl⟩
  · rw [he]
    exact ⟨e, rfl⟩

/-- C1: constructing a DeviceMesh from a mapping that violates any of the six
invariants fails with an error (for the two spec scenarios, with the error of
the specific violated check), and a construction that succeeds never carries a
mapping that violates an invariant — re-validating the constructed mesh's own
fields succeeds. -/
theorem mesh_construction_validates :
    (∀ (n p : Nat) (rows : List (List Nat)) (g nm : Option String) (cap : Nat),
      is_valid_mapping n p (PyMat.nd rows) ≠ Except.ok () →
      ∃ e, mkDeviceMesh n p (PyMat.nd rows) g nm cap = Except.error e) ∧
    (∀ (n p : Nat) (mp : PyMat) (g nm : Option String) (cap : Nat) (m : DeviceMesh),
      mkDeviceMesh n p mp g nm cap = Except.ok m →
      is_valid_mapping m.n_nodes m.n_gpus_per_node (PyMat.nd m.mapping) = Except.ok ()) ∧
    mkDeviceMesh 1 8 (PyMat.nd [[1, 1, 1, 0, 0, 0, 0, 0]]) (some strG) none 0
      = Except.error PyErr.invalidSubNodeCount ∧
    mkDeviceMesh 3 8 (PyMat.nd [o8, z8, o8]) (some strG) none 0
      = Except.error PyErr.mappingNotContiguous := by
  refine ⟨?_, ?_, by decide, by decide⟩
  · intro n p rows g nm cap h
    exact mkDeviceMesh_error_of_invalid g nm cap h
  · intro n p mp g nm cap m h
    obtain ⟨hv, hn, hp, hmap⟩ := mkDeviceMesh_ok_inversion h
    cases mp with
    | pylist rows => exact Except.noConfusion hv
    | nd rows =>
      rw [hn, hp, hmap]
      exact hv

theorem mesh_construction_validates_witness :
    (∃ e, mkDeviceMesh 1 8 (PyMat.nd [[1, 1, 1, 0, 0, 0, 0, 0]]) (some strG) (some strG) 0
        = Except.error e) ∧
    is_valid_mapping meshFull18.n_nodes meshFull18.n_gpus_per_node
      (PyMat.nd meshFull18.mapping) = Except.ok () :=
  ⟨mesh_construction_validates.1 1 8 [[1, 1, 1, 0, 0, 0, 0, 0]] (some strG) (some strG) 0
      (by decide),
   mesh_construction_validates.2.1 1 8 (PyMat.nd meshFull18.mapping) (some strG) (some strG) 0
      meshFull18 (by decide)⟩

/-- C10: every successfully constructed DeviceMesh claims at least one GPU
(the sub-node branch of validation accepts only positive powers of two, so an
all-zero mapping is rejected), and the all-zero mapping indeed fails
construction. -/
theorem constructed_mesh_nonempty :
    (∀ (n p : Nat) (mp : PyMat) (g nm : Option String) (cap : Nat) (m : DeviceMesh),
      mkDeviceMesh n p mp g nm cap = Except.ok m → 0 < mapSum m.mapping) ∧
    mkDeviceMesh 2 8 (PyMat.nd [z8, z8]) (some strG) (some strG) 0
      = Except.error PyErr.invalidSubNodeCount := by
  refine ⟨?_, by decide⟩
  intro n p mp g nm cap m h
  obtain ⟨hv, _, _, hmap⟩ := mkDeviceMesh_ok_inversion h
  cases mp with
  | pylist rows => exact Except.noConfusion hv
  | nd rows =>
    rw [hmap]
    exact valid_sum_pos hv

theorem constructed_mesh_nonempty_witness : 0 < mapSum meshFull18.mapping :=
  constructed_mesh_nonempty.1 1 8 (PyMat.nd meshFull18.mapping) (some strG) (some strG) 0
    meshFull18 (by decide)

theorem ok_bind {ε α β : Type} (a : α) (f : α → Except ε β) :
    (Except.ok a >>= f : Except ε β) = f a := rfl

theorem inner_pps_mem {n mp dpp : Nat} {pc : ParallelismConfig} (h : pc ∈ inner_pps n mp dpp) :
    pc.model_parallel_size = mp ∧ 1 ≤ pc.pipeline_parallel_size ∧
    pc.pipeline_parallel_size ≤ dpp ∧ dpp % pc.pipeline_parallel_size = 0 ∧
    pc.data_parallel_size = dpp / pc.pipeline_parallel_size := by
  simp only [inner_pps, List.mem_filterMap, List.mem_range] at h
  obtain ⟨i, hi, hsome⟩ := h
  split at hsome
  · rename_i hcond
    injection hsome with hsome
    subst hsome
    exact ⟨rfl, Nat.succ_le_succ (Nat.zero_le i), hi, hcond.2, rfl⟩
  · exact Option.noConfusion hsome

theorem inner_pps_product {n mp : Nat} (hmp : n % mp = 0) {pc : ParallelismConfig}
    (h : pc ∈ inner_pps n mp (n / mp)) :
    pc.pipeline_parallel_size * pc.model_parallel_size * pc.data_parallel_size = n := by
  obtain ⟨h1, _, _, h4, h5⟩ := inner_pps_mem h
  have hdvd : pc.pipeline_parallel_size ∣ n / mp := Nat.dvd_of_mod_eq_zero h4
  have hmdvd : mp ∣ n := Nat.dvd_of_mod_eq_zero hmp
  rw [h5, h1]
  calc pc.pipeline_parallel_size * mp * (n / mp / pc.pipeline_parallel_size)
      = mp * (pc.pipeline_parallel_size * (n / mp / pc.pipeline_parallel_size)) := by ring
    _ = mp * (n / mp) := by rw [Nat.mul_div_cancel' hdvd]
    _ = n := Nat.mul_div_cancel' hmdvd

theorem inner_pps_pairwise (n mp dpp : Nat) :
    List.Pairwise (fun a b => a.pipeline_parallel_size < b.pipeline_parallel_size)
      (inner_pps n mp dpp) := by
  unfold inner_pps
  rw [List.pairwise_filterMap]
  refine List.Pairwise.imp ?_ (List.pairwise_lt_range dpp)
  intro i j hij b hb b' hb'
  simp only [Option.mem_def] at hb hb'
  split at hb
  · injection hb with hb
    subst hb
    split at hb'
    · injection hb' with hb'
      subst hb'
      exact Nat.succ_lt_succ hij
    · exact Option.noConfusion hb'
  · exact Option.noConfusion hb

theorem mpBlock_ok_inversion {n mp : Nat} {l : List ParallelismConfig}
    (h : mpBlock n mp = Except.ok l) :
    (¬ mp ≤ n ∧ l = []) ∨ (mp ≤ n ∧ n % mp = 0 ∧ l = inner_pps n mp (n / mp)) := by
  unfold mpBlock at h
  split_ifs at h with h1 h2
  · injection h with h
    exact Or.inr ⟨h1, h2, h.symm⟩
  · injection h with h
    exact Or.inl ⟨h1, h.symm⟩

theorem mpBlock_ok_of (n mp : Nat) (hdiv : mp ≤ n → n % mp = 0) :
    mpBlock n mp = Except.ok (if mp ≤ n then inner_pps n mp (n / mp) else []) := by
  unfold mpBlock
  split_ifs with h1 h2
  · rfl
  · exact absurd (hdiv h1) h2
  · rfl

theorem search_strategies_ok_inversion {n : Nat} {res : List ParallelismConfig}
    (h : search_strategies n = Except.ok res) :
    ∃ l1 l2 l4 l8, mpBlock n 1 = Except.ok l1 ∧ mpBlock n 2 = Except.ok l2 ∧
      mpBlock n 4 = Except.ok l4 ∧ mpBlock n 8 = Except.ok l8 ∧
      res = l1 ++ l2 ++ l4 ++ l8 := by
  unfold search_strategies at h
  obtain ⟨b1, h1, h⟩ := except_bind_ok.mp h
  obtain ⟨b2, h2, h⟩ := except_bind_ok.mp h
  obtain ⟨b4, h4, h⟩ := except_bind_ok.mp h
  obtain ⟨b8, h8, h⟩ := except_bind_ok.mp h
  simp only [pure, Except.pure] at h
  injection h with h
  exact ⟨b1, b2, b4, b8, h1, h2, h4, h8, h.symm⟩

theorem mem_block_props {n mp : Nat} (hdiv : mp ≤ n → n % mp = 0) {pc : ParallelismConfig}
    (h : pc ∈ (if mp ≤ n then inner_pps n mp (n / mp) else [])) :
    pc.model_parallel_size = mp ∧ mp ≤ n ∧ n % mp = 0 := by
  split at h
  · rename_i hle
    exact ⟨(inner_pps_mem h).1, hle, hdiv hle⟩
  · exact absurd h (List.not_mem_nil pc)

/-- C5 (amended): when every model-parallel candidate that fits (1, 2, 4, 8 up
to n) divides n — which holds for every claimed total a valid mesh with at
least 8 GPUs per node can have — the search returns normally, and every
returned triple uses a model-parallel degree from the candidate set that fits
and divides n; degrees exceeding n are skipped.  (The counterexample shows
that a fitting degree that does not divide n makes the source assert-fail
rather than skip.) -/
theorem strategies_return_when_divisible (n : Nat)
    (h2 : 2 ≤ n → n % 2 = 0) (h4 : 4 ≤ n → n % 4 = 0) (h8 : 8 ≤ n → n % 8 = 0) :
    ∃ res, search_strategies n = Except.ok res ∧
      ∀ pc ∈ res, (pc.model_parallel_size = 1 ∨ pc.model_parallel_size = 2 ∨
          pc.model_parallel_size = 4 ∨ pc.model_parallel_size = 8) ∧
        pc.model_parallel_size ≤ n ∧ n % pc.model_parallel_size = 0 := by
  have h1 : (1 : Nat) ≤ n → n % 1 = 0 := fun _ => Nat.mod_one n
  have e1 := mpBlock_ok_of n 1 h1
  have e2 := mpBlock_ok_of n 2 h2
  have e4 := mpBlock_ok_of n 4 h4
  have e8 := mpBlock_ok_of n 8 h8
  refine ⟨(if 1 ≤ n then inner_pps n 1 (n / 1) else []) ++
      (if 2 ≤ n then inner_pps n 2 (n / 2) else []) ++
      (if 4 ≤ n then inner_pps n 4 (n / 4) else []) ++
      (if 8 ≤ n then inner_pps n 8 (n / 8) else []), ?_, ?_⟩
  · unfold search_strategies
    rw [e1, ok_bind, e2, ok_bind, e4, ok_bind, e8, ok_bind]
    rfl
  · intro pc hpc
    rcases List.mem_append.mp hpc with hpc | hpc8
    · rcases List.mem_append.mp hpc with hpc | hpc4
      · rcases List.mem_append.mp hpc with hpc1 | hpc2
        · obtain ⟨hm, hle, hmod⟩ := mem_block_props h1 hpc1
          exact ⟨Or.inl hm, hm ▸ hle, hm ▸ hmod⟩
        · obtain ⟨hm, hle, hmod⟩ := mem_block_props h2 hpc2
          exact ⟨Or.inr (Or.inl hm), hm ▸ hle, hm ▸ hmod⟩
      · obtain ⟨hm, hle, hmod⟩ := mem_block_props h4 hpc4
        exact ⟨Or.inr (Or.inr (Or.inl hm)), hm ▸ hle, hm ▸ hmod⟩
    · obtain ⟨hm, hle, hmod⟩ := mem_block_props h8 hpc8
      exact ⟨Or.inr (Or.inr (Or.inr hm)), hm ▸ hle, hm ▸ hmod⟩

theorem strategies_return_when_divisible_witness :
    ∃ res, search_strategies 8 = Except.ok res ∧
      ∀ pc ∈ res, (pc.model_parallel_size = 1 ∨ pc.model_parallel_size = 2 ∨
          pc.model_parallel_size = 4 ∨ pc.model_parallel_size = 8) ∧
        pc.model_parallel_size ≤ 8 ∧ 8 % pc.model_parallel_size = 0 :=
  strategies_return_when_divisible 8 (by decide) (by decide) (by decide)

theorem mpBlock_product {n mp : Nat} {l : List ParallelismConfig}
    (h : mpBlock n mp = Except.ok l) {pc : ParallelismConfig} (hpc : pc ∈ l) :
    pc.pipeline_parallel_size * pc.model_parallel_size * pc.data_parallel_size = n := by
  rcases mpBlock_ok_inversion h with ⟨_, rfl⟩ | ⟨_, hmod, rfl⟩
  · exact absurd hpc (List.not_mem_nil pc)
  · exact inner_pps_product hmod hpc

theorem mpBlock_pairwise {n mp : Nat} {l : List ParallelismConfig}
    (h : mpBlock n mp = Except.ok l) :
    List.Pairwise strategyOrder l ∧ ∀ pc ∈ l, pc.model_parallel_size = mp := by
  rcases mpBlock_ok_inversion h with ⟨_, rfl⟩ | ⟨_, _, rfl⟩
  · exact ⟨List.Pairwise.nil, by simp⟩
  · constructor
    · refine (inner_pps_pairwise n mp (n / mp)).imp_of_mem ?_
      intro a b ha hb hlt
      exact Or.inr ⟨((inner_pps_mem ha).1).trans ((inner_pps_mem hb).1).symm, hlt⟩
    · intro pc hpc
      exact (inner_pps_mem hpc).1

/-- C6: every triple search_strategies returns multiplies to the device count,
the sequence is ordered by ascending model-parallel degree and, within equal
model-parallel degree, ascending pipeline degree; and for 8 devices the result
is exactly strategies8, which contains the six regression triples. -/
theorem strategies_product_ordered :
    (∀ (n : Nat) (res : List ParallelismConfig), search_strategies n = Except.ok res →
      (∀ pc ∈ res,
        pc.pipeline_parallel_size * pc.model_parallel_size * pc.data_parallel_size = n) ∧
      List.Pairwise strategyOrder res) ∧
    search_strategies 8 = Except.ok strategies8 ∧
    ({ pipeline_parallel_size := 1, model_parallel_size := 1, data_parallel_size := 8} :
      ParallelismConfig) ∈ strategies8 ∧
    ({ pipeline_parallel_size := 1, model_parallel_size := 8, data_parallel_size := 1} :
      ParallelismConfig) ∈ strategies8 ∧
    ({ pipeline_parallel_size := 1, model_parallel_size := 2, data_parallel_size := 4} :
      ParallelismConfig) ∈ strategies8 ∧
    ({ pipeline_parallel_size := 1, model_parallel_size := 4, data_parallel_size := 2} :
      ParallelismConfig) ∈ strategies8 ∧
    ({ pipeline_parallel_size := 2, model_parallel_size := 1, data_parallel_size := 4} :
      ParallelismConfig) ∈ strategies8 ∧
    ({ pipeline_parallel_size := 8, model_parallel_size := 1, data_parallel_size := 1} :
      ParallelismConfig) ∈ strategies8 := by
  refine ⟨?_, by decide, by decide, by decide, by decide, by decide, by decide, by decide⟩
  intro n res h
  obtain ⟨l1, l2, l4, l8, h1, h2, h4, h8, hres⟩ := search_strategies_ok_inversion h
  subst hres
  have p1 := mpBlock_pairwise h1
  have p2 := mpBlock_pairwise h2
  have p4 := mpBlock_pairwise h4
  have p8 := mpBlock_pairwise h8
  constructor
  · intro pc hpc
    rcases List.mem_append.mp hpc with hpc | hpc8
    · rcases List.mem_append.mp hpc with hpc | hpc4
      · rcases List.mem_append.mp hpc with hpc1 | hpc2
        · exact mpBlock_product h1 hpc1
        · exact mpBlock_product h2 hpc2
      · exact mpBlock_product h4 hpc4
    · exact mpBlock_product h8 hpc8
  · rw [List.pairwise_append]
    refine ⟨?_, p8.1, ?_⟩
    · rw [List.pairwise_append]
      refine ⟨?_, p4.1, ?_⟩
      · rw [List.pairwise_append]
        refine ⟨p1.1, p2.1, ?_⟩
        intro a ha b hb
        exact Or.inl (by rw [p1.2 a ha, p2.2 b hb]; norm_num)
      · intro a ha b hb
        rcases List.mem_append.mp ha with ha' | ha'
        · exact Or.inl (by rw [p1.2 a ha', p4.2 b hb]; norm_num)
        · exact Or.inl (by rw [p2.2 a ha', p4.2 b hb]; norm_num)
    · intro a ha b hb
      rcases List.mem_append.mp ha with ha' | ha'
      · rcases List.mem_append.mp ha' with ha'' | ha''
        · exact Or.inl (by rw [p1.2 a ha'', p8.2 b hb]; norm_num)
        · exact Or.inl (by rw [p2.2 a ha'', p8.2 b hb]; norm_num)
      · exact Or.inl (by rw [p4.2 a ha', p8.2 b hb]; norm_num)

theorem strategies_product_ordered_witness :
    (∀ pc ∈ strategies8,
      pc.pipeline_parallel_size * pc.model_parallel_size * pc.data_parallel_size = 8) ∧
    List.Pairwise strategyOrder strategies8 :=
  strategies_product_ordered.1 8 strategies8 (by decide)

theorem zeroFirstOnes_length (k : Nat) (xs : List Nat) :
    (zeroFirstOnes k xs).length = xs.length := by
  induction xs generalizing k with
  | nil => cases k <;> rfl
  | cons x t ih =>
    cases k with
    | zero => rfl
    | succ k =>
      simp only [zeroFirstOnes]
      split_ifs <;> simp [ih]

theorem zeroFirstOnes_spec (k : Nat) (xs : List Nat) (h01 : ∀ x ∈ xs, x ≤ 1)
    (hk : k ≤ xs.sum) :
    List.zipWith (fun u v => u - v) xs (zeroFirstOnes k xs) = firstOnesMask k xs ∧
    (zeroFirstOnes k xs).sum = xs.sum - k ∧
    (firstOnesMask k xs).sum = k ∧
    List.zipWith (fun u v => u ||| v) (firstOnesMask k xs) (zeroFirstOnes k xs) = xs ∧
    List.zipWith (fun u v => u &&& v) (firstOnesMask k xs) (zeroFirstOnes k xs)
      = List.replicate xs.length 0 := by
  induction xs generalizing k with
  | nil =>
    have hk0 : k = 0 := Nat.le_zero.mp (by simpa using hk)
    subst hk0
    simp [zeroFirstOnes, firstOnesMask]
  | cons x t ih =>
    have hx : x ≤ 1 := h01 x (List.mem_cons_self x t)
    have h01t : ∀ y ∈ t, y ≤ 1 := fun y hy => h01 y (List.mem_cons_of_mem x hy)
    cases k with
    | zero =>
      obtain ⟨m1, m2, m3, m4, m5⟩ := ih 0 h01t (Nat.zero_le _)
      refine ⟨?_, ?_, ?_, ?_, ?_⟩
      · simpa [zeroFirstOnes, firstOnesMask] using m1
      · simp [zeroFirstOnes]
      · simpa [firstOnesMask] using m3
      · simpa [zeroFirstOnes, firstOnesMask] using m4
      · simpa [zeroFirstOnes, firstOnesMask, List.replicate_succ] using m5
    | succ k =>
      rcases Nat.le_one_iff_eq_zero_or_eq_one.mp hx with hx0 | hx1
      · subst hx0
        have hkt : k + 1 ≤ t.sum := by simpa using hk
        obtain ⟨m1, m2, m3, m4, m5⟩ := ih (k + 1) h01t hkt
        refine ⟨?_, ?_, ?_, ?_, ?_⟩
        · simpa [zeroFirstOnes, firstOnesMask] using m1
        · simpa [zeroFirstOnes] using m2
        · simpa [firstOnesMask] using m3
        · simpa [zeroFirstOnes, firstOnesMask] using m4
        · simpa [zeroFirstOnes, firstOnesMask, List.replicate_succ] using m5
      · subst hx1
        have hkt : k ≤ t.sum := by
          have : k + 1 ≤ 1 + t.sum := by simpa using hk
          omega
        obtain ⟨m1, m2, m3, m4, m5⟩ := ih k h01t hkt
        refine ⟨?_, ?_, ?_, ?_, ?_⟩
        · simpa [zeroFirstOnes, firstOnesMask] using m1
        · simp only [zeroFirstOnes, firstOnesMask, List.sum_cons]
          simp [m2]
          omega
        · simp only [firstOnesMask, List.sum_cons]
          simp [m3]
          omega
        · simpa [zeroFirstOnes, firstOnesMask] using m4
        · simpa [zeroFirstOnes, firstOnesMask, List.replicate_succ] using m5

theorem reshapeLike_flatten (rows : List (List Nat)) (flat : List Nat)
    (h : flat.length = rows.flatten.length) :
    (reshapeLike rows flat).flatten = flat := by
  induction rows generalizing flat with
  | nil =>
    have h0 : flat.length = 0 := by simpa using h
    simp [reshapeLike, List.length_eq_zero.mp h0]
  | cons r rs ih =>
    simp only [reshapeLike, List.flatten_cons]
    have hlen : (flat.drop r.length).length = rs.flatten.length := by
      simp only [List.flatten_cons, List.length_append, List.length_flatten] at h
      simp [List.length_drop, List.length_flatten]
      omega
    rw [ih _ hlen]
    exact List.take_append_drop r.length flat

theorem reshapeLike_lengths (rows : List (List Nat)) (flat : List Nat)
    (h : flat.length = rows.flatten.length) :
    (reshapeLike rows flat).map List.length = rows.map List.length := by
  induction rows generalizing flat with
  | nil => rfl
  | cons r rs ih =>
    simp only [List.flatten_cons, List.length_append, List.length_flatten] at h
    simp only [reshapeLike, List.map_cons]
    congr 1
    · simp [List.length_take]
      omega
    · apply ih
      simp [List.length_drop, List.length_flatten]
      omega

theorem gridZipWith_lengths (f : Nat → Nat → Nat) (a b : List (List Nat))
    (h : a.map List.length = b.map List.length) :
    (gridZipWith f a b).map List.length = a.map List.length := by
  induction a generalizing b with
  | nil => rfl
  | cons ra as ih =>
    cases b with
    | nil => exact absurd h (by simp)
    | cons rb bs =>
      simp only [List.map_cons, List.cons.injEq] at h
      simp only [gridZipWith, List.zipWith_cons_cons, List.map_cons]
      congr 1
      · rw [List.length_zipWith, ← h.1, Nat.min_self]
      · exact ih bs h.2

theorem gridZipWith_flatten (f : Nat → Nat → Nat) (a b : List (List Nat))
    (h : a.map List.length = b.map List.length) :
    (gridZipWith f a b).flatten = List.zipWith f a.flatten b.flatten := by
  induction a generalizing b with
  | nil => rfl
  | cons ra as ih =>
    cases b with
    | nil => exact absurd h (by simp)
    | cons rb bs =>
      simp only [List.map_cons, List.cons.injEq] at h
      simp only [gridZipWith, List.zipWith_cons_cons, List.flatten_cons]
      rw [List.zipWith_append _ _ _ _ _ h.1]
      congr 1
      exact ih bs h.2

theorem grids_eq (a b : List (List Nat)) (hlen : a.map List.length = b.map List.length)
    (hfl : a.flatten = b.flatten) : a = b := by
  induction a generalizing b with
  | nil =>
    cases b with
    | nil => rfl
    | cons rb bs => exact absurd hlen (by simp)
  | cons ra as ih =>
    cases b with
    | nil => exact absurd hlen (by simp)
    | cons rb bs =>
      simp only [List.map_cons, List.cons.injEq] at hlen
      simp only [List.flatten_cons] at hfl
      obtain ⟨h1, h2⟩ := List.append_inj hfl hlen.1
      rw [h1, ih bs hlen.2 h2]

theorem mapSum_eq_flatten_sum (rows : List (List Nat)) : mapSum rows = rows.flatten.sum :=
  (List.sum_flatten).symm

theorem vals01_flatten {rows : List (List Nat)} (h : vals01 rows = true) :
    ∀ x ∈ rows.flatten, x ≤ 1 := by
  intro x hx
  rw [List.mem_flatten] at hx
  obtain ⟨r, hr, hxr⟩ := hx
  unfold vals01 at h
  rw [List.all_eq_true] at h
  have hrow := h r hr
  rw [List.all_eq_true] at hrow
  have hval := hrow x hxr
  simp only [Bool.or_eq_true, beq_iff_eq] at hval
  omega

theorem claimedCellsRow_nil {i j : Nat} {r : List Nat} (h : claimedCellsRow i j r = []) :
    ∀ x ∈ r, x ≠ 1 := by
  induction r generalizing j with
  | nil => simp
  | cons x t ih =>
    simp only [claimedCellsRow] at h
    split_ifs at h with hx
    intro y hy
    rcases List.mem_cons.mp hy with rfl | hyt
    · intro h1
      exact hx (by simp [h1])
    · exact ih h y hyt

theorem claimedCellsAux_nil {i : Nat} {rows : List (List Nat)}
    (h : claimedCellsAux i rows = []) : ∀ r ∈ rows, ∀ x ∈ r, x ≠ 1 := by
  induction rows generalizing i with
  | nil => simp
  | cons r rs ih =>
    simp only [claimedCellsAux, List.append_eq_nil] at h
    intro r' hr'
    rcases List.mem_cons.mp hr' with rfl | hrs
    · exact claimedCellsRow_nil h.1
    · exact ih h.2 r' hrs

theorem claimedCells_ne_nil {rows : List (List Nat)} (h01 : vals01 rows = true)
    (hpos : 0 < mapSum rows) : claimedCells rows ≠ [] := by
  intro hnil
  have hall : ∀ x ∈ rows.flatten, x = 0 := by
    intro x hx
    have hle := vals01_flatten h01 x hx
    rw [List.mem_flatten] at hx
    obtain ⟨r, hr, hxr⟩ := hx
    have hne1 : x ≠ 1 := claimedCellsAux_nil hnil r hr x hxr
    omega
  have hzero : rows.flatten.sum = 0 := List.sum_eq_zero hall
  rw [mapSum_eq_flatten_sum] at hpos
  omega

theorem device_mesh_name_ok (g : String) (rows : List (List Nat))
    (hne : claimedCells rows ≠ []) :
    ∃ s, device_mesh_name_from_mapping (some g) (PyMat.nd rows) = Except.ok s := by
  simp only [device_mesh_name_from_mapping]
  split_ifs with hsum
  · cases hcl : claimedCells rows with
    | nil => exact absurd hcl hne
    | cons c cs => exact ⟨_, rfl⟩
  · exact ⟨_, rfl⟩

theorem mkDeviceMesh_ok_of_valid {n p : Nat} {rows : List (List Nat)} (g : Option String)
    (nm : String) (cap : Nat) (hv : is_valid_mapping n p (PyMat.nd rows) = Except.ok ()) :
    mkDeviceMesh n p (PyMat.nd rows) g (some nm) cap = Except.ok
      { n_nodes := n, n_gpus_per_node := p, mapping := rows,
        global_mesh_name := some (g.getD (defaultGlobalMeshName n)),
        name := some nm, gpu_memory_capacity := cap } := by
  have hstep : mkDeviceMesh n p (PyMat.nd rows) g (some nm) cap
      = match is_valid_mapping n p (PyMat.nd rows) with
        | Except.error e => Except.error e
        | Except.ok _ => Except.ok
            { n_nodes := n, n_gpus_per_node := p, mapping := rows,
              global_mesh_name := some (g.getD (defaultGlobalMeshName n)),
              name := some nm, gpu_memory_capacity := cap } := rfl
  rw [hstep, hv]

/-- C2: for a valid mesh (its global name set, as construction guarantees) and
0 < k < total, when both computed halves are structurally legal, split returns
the pair whose first mesh claims exactly the first k claimed cells in
row-major order (the spec-side mask firstOnesMask), with totals k and
total - k, whose element-wise OR rebuilds the original mapping and whose
element-wise AND is all zeros. -/
theorem split_reconstructs_original (m : DeviceMesh) (k : Nat) (g : String)
    (hg : m.global_mesh_name = some g)
    (hv : validMapping m.n_nodes m.n_gpus_per_node m.mapping = true)
    (hk0 : 0 < k) (hk : k < mapSum m.mapping)
    (h1 : validMapping m.n_nodes m.n_gpus_per_node (splitSub1 m k) = true)
    (h2 : validMapping m.n_nodes m.n_gpus_per_node (splitSub2 m k) = true) :
    ∃ d1 d2, m.split k = Except.ok (d1, d2) ∧
      d1.mapping = splitSub1 m k ∧ d2.mapping = splitSub2 m k ∧
      d1.mapping.flatten = firstOnesMask k m.mapping.flatten ∧
      mapSum d1.mapping = k ∧ mapSum d2.mapping = mapSum m.mapping - k ∧
      gridZipWith (fun u v => u ||| v) d1.mapping d2.mapping = m.mapping ∧
      (gridZipWith (fun u v => u &&& v) d1.mapping d2.mapping).flatten
        = List.replicate m.mapping.flatten.length 0 := by
  have hvE := (validMapping_iff _ _ _).mp hv
  have hv1E := (validMapping_iff _ _ _).mp h1
  have hv2E := (validMapping_iff _ _ _).mp h2
  have h01 : vals01 m.mapping = true := (valid_parts hvE).2.1
  have h01f : ∀ x ∈ m.mapping.flatten, x ≤ 1 := vals01_flatten h01
  have hks : k ≤ m.mapping.flatten.sum := by
    rw [← mapSum_eq_flatten_sum]
    exact Nat.le_of_lt hk
  obtain ⟨msub, hsum2, hsum1, hor, hand⟩ := zeroFirstOnes_spec k m.mapping.flatten h01f hks
  have hzlen : (zeroFirstOnes k m.mapping.flatten).length = m.mapping.flatten.length :=
    zeroFirstOnes_length k m.mapping.flatten
  have hs2flat : (splitSub2 m k).flatten = zeroFirstOnes k m.mapping.flatten :=
    reshapeLike_flatten m.mapping (zeroFirstOnes k m.mapping.flatten) (by rw [hzlen])
  have hs2len : (splitSub2 m k).map List.length = m.mapping.map List.length :=
    reshapeLike_lengths m.mapping (zeroFirstOnes k m.mapping.flatten) (by rw [hzlen])
  have hs1len : (splitSub1 m k).map List.length = m.mapping.map List.length := by
    rw [splitSub1, gridZipWith_lengths _ m.mapping (splitSub2 m k) hs2len.symm]
  have hs1flat : (splitSub1 m k).flatten = firstOnesMask k m.mapping.flatten := by
    rw [splitSub1, gridZipWith_flatten _ m.mapping (splitSub2 m k) hs2len.symm, hs2flat, msub]
  have hsum1' : mapSum (splitSub1 m k) = k := by
    rw [mapSum_eq_flatten_sum, hs1flat, hsum1]
  have hsum2' : mapSum (splitSub2 m k) = mapSum m.mapping - k := by
    rw [mapSum_eq_flatten_sum, hs2flat, hsum2, mapSum_eq_flatten_sum]
  have h011 : vals01 (splitSub1 m k) = true := (valid_parts hv1E).2.1
  have h012 : vals01 (splitSub2 m k) = true := (valid_parts hv2E).2.1
  have hne1 : claimedCells (splitSub1 m k) ≠ [] :=
    claimedCells_ne_nil h011 (by rw [hsum1']; exact hk0)
  have hne2 : claimedCells (splitSub2 m k) ≠ [] :=
    claimedCells_ne_nil h012 (by rw [hsum2']; omega)
  obtain ⟨n1, hn1⟩ := device_mesh_name_ok g (splitSub1 m k) hne1
  obtain ⟨n2, hn2⟩ := device_mesh_name_ok g (splitSub2 m k) hne2
  have hmk1 := mkDeviceMesh_ok_of_valid (some g) n1 m.gpu_memory_capacity hv1E
  have hmk2 := mkDeviceMesh_ok_of_valid (some g) n2 m.gpu_memory_capacity hv2E
  have hle : ¬ mapSum m.mapping ≤ k := by omega
  have hlens12 : (splitSub1 m k).map List.length = (splitSub2 m k).map List.length :=
    hs1len.trans hs2len.symm
  refine ⟨{ n_nodes := m.n_nodes, n_gpus_per_node := m.n_gpus_per_node,
            mapping := splitSub1 m k, global_mesh_name := some g,
            name := some n1, gpu_memory_capacity := m.gpu_memory_capacity },
          { n_nodes := m.n_nodes, n_gpus_per_node := m.n_gpus_per_node,
            mapping := splitSub2 m k, global_mesh_name := some g,
            name := some n2, gpu_memory_capacity := m.gpu_memory_capacity },
          ?_, rfl, rfl, hs1flat, hsum1', hsum2', ?_, ?_⟩
  · simp only [DeviceMesh.split, hvE, hg, if_neg hle, hn1, hmk1, hn2, hmk2, Option.getD]
  · apply grids_eq
    · rw [gridZipWith_lengths _ _ _ hlens12, hs1len]
    · rw [gridZipWith_flatten _ _ _ hlens12, hs1flat, hs2flat, hor]
  · rw [gridZipWith_flatten _ _ _ hlens12, hs1flat, hs2flat, hand]

theorem split_reconstructs_original_witness :
    ∃ d1 d2, meshFull2x8.split 8 = Except.ok (d1, d2) ∧
      d1.mapping = splitSub1 meshFull2x8 8 ∧ d2.mapping = splitSub2 meshFull2x8 8 ∧
      d1.mapping.flatten = firstOnesMask 8 meshFull2x8.mapping.flatten ∧
      mapSum d1.mapping = 8 ∧ mapSum d2.mapping = mapSum meshFull2x8.mapping - 8 ∧
      gridZipWith (fun u v => u ||| v) d1.mapping d2.mapping = meshFull2x8.mapping ∧
      (gridZipWith (fun u v => u &&& v) d1.mapping d2.mapping).flatten
        = List.replicate meshFull2x8.mapping.flatten.length 0 :=
  split_reconstructs_original meshFull2x8 8 strG (by decide) (by decide) (by decide)
    (by decide) (by decide) (by decide)

/-- C3: split fails whenever the requested size is not smaller than the
claimed total; it fails whenever either computed half violates a mapping
invariant (for instance splitting a full 8-GPU node 3/5); and whenever it does
return a pair, both halves satisfy the mapping invariants. -/
theorem split_rejects_illegal :
    (∀ (m : DeviceMesh) (k : Nat), mapSum m.mapping ≤ k →
      ∃ e, m.split k = Except.error e) ∧
    (∀ (m : DeviceMesh) (k : Nat),
      validMapping m.n_nodes m.n_gpus_per_node (splitSub1 m k) = false ∨
      validMapping m.n_nodes m.n_gpus_per_node (splitSub2 m k) = false →
      ∃ e, m.split k = Except.error e) ∧
    (∀ (m : DeviceMesh) (k : Nat) (d1 d2 : DeviceMesh),
      m.split k = Except.ok (d1, d2) →
      validMapping d1.n_nodes d1.n_gpus_per_node d1.mapping = true ∧
      validMapping d2.n_nodes d2.n_gpus_per_node d2.mapping = true) := by
  refine ⟨?_, ?_, ?_⟩
  · intro m k hle
    cases hv : is_valid_mapping m.n_nodes m.n_gpus_per_node (PyMat.nd m.mapping) with
    | error e => exact ⟨e, by simp [DeviceMesh.split, hv]⟩
    | ok u =>
      cases u
      exact ⟨PyErr.splitSizeAssert, by simp [DeviceMesh.split, hv, if_pos hle]⟩
  · intro m k hbad
    cases hv : is_valid_mapping m.n_nodes m.n_gpus_per_node (PyMat.nd m.mapping) with
    | error e => exact ⟨e, by simp [DeviceMesh.split, hv]⟩
    | ok u =>
      cases u
      by_cases hle : mapSum m.mapping ≤ k
      · exact ⟨PyErr.splitSizeAssert, by simp [DeviceMesh.split, hv, if_pos hle]⟩
      · cases hn1 : device_mesh_name_from_mapping m.global_mesh_name
            (PyMat.nd (splitSub1 m k)) with
        | error e => exact ⟨e, by simp [DeviceMesh.split, hv, if_neg hle, hn1]⟩
        | ok n1 =>
          cases hmk1 : mkDeviceMesh m.n_nodes m.n_gpus_per_node (PyMat.nd (splitSub1 m k))
              m.global_mesh_name (some n1) m.gpu_memory_capacity with
          | error e => exact ⟨e, by simp [DeviceMesh.split, hv, if_neg hle, hn1, hmk1]⟩
          | ok d1 =>
            have hv1 := (mkDeviceMesh_ok_inversion hmk1).1
            have hval1 : validMapping m.n_nodes m.n_gpus_per_node (splitSub1 m k) = true :=
              (validMapping_iff _ _ _).mpr hv1
            have hbad2 : validMapping m.n_nodes m.n_gpus_per_node (splitSub2 m k) = false := by
              rcases hbad with hbad | hbad
              · rw [hval1] at hbad
                exact absurd hbad (by simp)
              · exact hbad
            have hv2ne : is_valid_mapping m.n_nodes m.n_gpus_per_node
                (PyMat.nd (splitSub2 m k)) ≠ Except.ok () := by
              intro hc
              rw [(validMapping_iff _ _ _).mpr hc] at hbad2
              exact Bool.noConfusion hbad2
            cases hn2 : device_mesh_name_from_mapping m.global_mesh_name
                (PyMat.nd (splitSub2 m k)) with
            | error e => exact ⟨e, by simp [DeviceMesh.split, hv, if_neg hle, hn1, hmk1, hn2]⟩
            | ok n2 =>
              obtain ⟨e, he⟩ := mkDeviceMesh_error_of_invalid m.global_mesh_name (some n2)
                m.gpu_memory_capacity hv2ne
              exact ⟨e, by simp [DeviceMesh.split, hv, if_neg hle, hn1, hmk1, hn2, he]⟩
  · intro m k d1 d2 h
    cases hv : is_valid_mapping m.n_nodes m.n_gpus_per_node (PyMat.nd m.mapping) with
    | error e =>
      simp only [DeviceMesh.split, hv] at h
      exact Except.noConfusion h
    | ok u =>
      cases u
      by_cases hle : mapSum m.mapping ≤ k
      · simp only [DeviceMesh.split, hv, if_pos hle] at h
        exact Except.noConfusion h
      · cases hn1 : device_mesh_name_from_mapping m.global_mesh_name
            (PyMat.nd (splitSub1 m k)) with
        | error e =>
          simp only [DeviceMesh.split, hv, if_neg hle, hn1] at h
          exact Except.noConfusion h
        | ok n1 =>
          cases hmk1 : mkDeviceMesh m.n_nodes m.n_gpus_per_node (PyMat.nd (splitSub1 m k))
              m.global_mesh_name (some n1) m.gpu_memory_capacity with
          | error e =>
            simp only [DeviceMesh.split, hv, if_neg hle, hn1, hmk1] at h
            exact Except.noConfusion h
          | ok d1' =>
            cases hn2 : device_mesh_name_from_mapping m.global_mesh_name
                (PyMat.nd (splitSub2 m k)) with
            | error e =>
              simp only [DeviceMesh.split, hv, if_neg hle, hn1, hmk1, hn2] at h
              exact Except.noConfusion h
            | ok n2 =>
              cases hmk2 : mkDeviceMesh m.n_nodes m.n_gpus_per_node (PyMat.nd (splitSub2 m k))
                  m.global_mesh_name (some n2) m.gpu_memory_capacity with
              | error e =>
                simp only [DeviceMesh.split, hv, if_neg hle, hn1, hmk1, hn2, hmk2] at h
                exact Except.noConfusion h
              | ok d2' =>
                simp only [DeviceMesh.split, hv, if_neg hle, hn1, hmk1, hn2, hmk2,
                  Except.ok.injEq, Prod.mk.injEq] at h
                obtain ⟨hd1, hd2⟩ := h
                subst hd1
                subst hd2
                obtain ⟨hval1, hn1', hp1', hmap1⟩ := mkDeviceMesh_ok_inversion hmk1
                obtain ⟨hval2, hn2', hp2', hmap2⟩ := mkDeviceMesh_ok_inversion hmk2
                constructor
                · rw [hn1', hp1', hmap1]
                  exact (validMapping_iff _ _ _).mpr hval1
                · rw [hn2', hp2', hmap2]
                  exact (validMapping_iff _ _ _).mpr hval2

theorem split_rejects_illegal_witness :
    (∃ e, meshFull2x8.split 16 = Except.error e) ∧
    (∃ e, meshFull2x8.split 3 = Except.error e) ∧
    (validMapping meshSplitA.n_nodes meshSplitA.n_gpus_per_node meshSplitA.mapping = true ∧
     validMapping meshSplitB.n_nodes meshSplitB.n_gpus_per_node meshSplitB.mapping = true) :=
  ⟨split_rejects_illegal.1 meshFull2x8 16 (by decide),
   split_rejects_illegal.2.1 meshFull2x8 3 (Or.inl (by decide)),
   split_rejects_illegal.2.2 meshFull2x8 8 meshSplitA meshSplitB (by decide)⟩
